import Mathlib

/-!
Verification of the `networkinterfaces` repository: a shallow embedding of the
two interface modules (`linuxnetworkinterfaces.py`, the strict variant, and
`networkinterfaces.py`, the permissive variant) and proofs about their
attribute accessor / mutator behaviour.

External command execution (`subprocess.check_call` / `check_output`) is
modelled by an abstract system `Sys`: a state, a pure observation of the
stdout of `ip link show <iface>` and `iw dev <iface> info`, and a `run`
function giving the effect of a mutation command (`none` = non-zero exit
status).  Every method becomes a function `Sys sigma -> Sys sigma x Except PyErr out`
so that side effects performed before an exception persist, as in Python.
-/

/-- The runtime errors the embedded modules can produce.  `systemCallError` is
`lib.exceptions.SystemCallError` as raised by the strict module (its message
embeds the failed command, so the payload here is that command);
`calledProcessError` is an uncaught `subprocess.CalledProcessError` as escapes
the permissive module (it carries the failing command);
`attributeSetSilentFailError` is `lib.exceptions.AttributeSetSilentFailError`;
`attributeError` is a Python `AttributeError` with the missing attribute name;
`pyException` is a plain `Exception(msg)`; `unboundLocalError` is Python's
error for reading a never-assigned local variable; `indexError` / `valueError`
are the list-index and int/unpack conversion errors.
`managerNotConfiguredError` is the error NAMED BY THE SPEC for management
delegation without a backend; no code in the repository defines or raises it —
it is included only so that statements about it can be written. -/
inductive PyErr where
  | systemCallError (cmd : String)
  | calledProcessError (cmd : String)
  | attributeSetSilentFailError (attr : String)
  | attributeError (attr : String)
  | pyException (msg : String)
  | unboundLocalError (var : String)
  | indexError
  | valueError
  | managerNotConfiguredError
  deriving Repr, DecidableEq

deriving instance DecidableEq for Except

/-- The external system (the OS plus the `ip`/`iw` tools).  `showOut s i` is
the stdout of `ip link show i` in system state `s`; `iwInfo s i` is the stdout
of `iw dev i info`; `run s c` is the result of executing mutation command `c`:
`some s1` on exit status zero with new system state `s1`, `none` on a
non-zero exit status. -/
structure Sys (sigma : Type) where
  state : sigma
  showOut : sigma → String → String
  iwInfo : sigma → String → String
  run : sigma → String → Option sigma

/-- A method body: takes the system, returns the (possibly updated) system and
either a value or the Python exception that escaped. -/
abbrev M (sigma : Type) (alpha : Type) := Sys sigma → Sys sigma × Except PyErr alpha

/-- Execute a mutation command, wrapping a non-zero exit status with `wrapErr`
(the strict module wraps with `SystemCallError`, the permissive module lets the
raw `CalledProcessError` escape). -/
def writeCmd {sigma : Type} (wrapErr : String → PyErr) (cmd : String) : M sigma Unit := fun sys =>
  match sys.run sys.state cmd with
  | none => (sys, .error (wrapErr cmd))
  | some s1 => ({ sys with state := s1 }, .ok ())

/-! ## The field parse shared by the attribute reads

Both modules locate a field in the `ip link show` output with the same loop:

    slst = sstr.split(" "); x = None; index = 0
    for part in slst:
        if part == marker: x = slst[index + 1]
        index = index + 1

Each time `part` equals the marker the accumulator is overwritten with the
next token (`slst[index + 1]`, an `IndexError` when the marker is the final
token), and the loop never breaks.  Since `slst[index + 1]` at iteration
`index` is exactly the element following the current one, the loop is the
structural recursion below. -/

def parseFieldAux (marker : String) (acc : Option String) : List String → Except PyErr (Option String)
  | [] => .ok acc
  | p :: rest =>
    if p = marker then
      match rest with
      | [] => .error .indexError
      | t :: _ => parseFieldAux marker (some t) rest
    else parseFieldAux marker acc rest

/-- The field parse: scan the token list, remembering the token that follows
each occurrence of `marker`; the value left at the end of the loop is
returned (`none` when the marker never occurred). -/
def parseField (slst : List String) (marker : String) : Except PyErr (Option String) :=
  parseFieldAux marker none slst

/-- Python `pat in s` on strings: `pat.data` occurs as a contiguous run of `s.data`.
Helper: does `pat` start `s`? -/
def charsStart (pat s : List Char) : Bool :=
  match pat, s with
  | [], _ => true
  | _ :: _, [] => false
  | p :: ps, c :: cs => p == c && charsStart ps cs

/-- Does `pat` occur contiguously somewhere in `s`? -/
def charsContain (s pat : List Char) : Bool :=
  match s with
  | [] => pat.isEmpty
  | _ :: cs => charsStart pat s || charsContain cs pat

/-- Python's substring test `pat in s`. -/
def strContainsPy (s pat : String) : Bool := charsContain s.data pat.data

/-- Python `str.split(sep)` for a non-empty separator, on character lists:
scan left to right; each occurrence of `sep` ends the current segment (empty
segments are kept, as in Python).  `skip` counts separator characters still
to be consumed; `cur` is the current segment, reversed. -/
def pySplitAux (sep : List Char) : List Char → Nat → List Char → List (List Char)
  | [], _ + 1, cur => [cur.reverse]
  | _ :: cs, k + 1, cur => pySplitAux sep cs k cur
  | [], 0, cur => [cur.reverse]
  | c :: cs, 0, cur =>
    if charsStart sep (c :: cs) then cur.reverse :: pySplitAux sep cs (sep.length - 1) []
    else pySplitAux sep cs 0 (c :: cur)

/-- Python `s.split(sep)` (non-empty `sep`; empty segments kept; `""` splits
to `[""]`). -/
def pySplit (s sep : String) : List String :=
  (pySplitAux sep.data s.data 0 []).map String.mk

/-- Python `str.lower()` (character-wise). -/
def pyLower (s : String) : String := String.mk (s.data.map Char.toLower)

/-- Digits of a decimal numeral to a number; `none` if empty or any
character is not a digit. -/
def digitsToNat : List Char → Option Nat
  | [] => none
  | l => l.foldl (fun acc c => match acc with
      | none => none
      | some n => if c.isDigit then some (n * 10 + (c.toNat - 48)) else none) (some 0)

/-- Python `int(s)` restricted to optionally-signed decimal numerals (the
only shape the channel token takes); `none` models the `ValueError`. -/
def pyInt? (s : String) : Option Int :=
  match s.data with
  | '-' :: rest => (digitsToNat rest).map (fun n => -(n : Int))
  | l => (digitsToNat l).map Int.ofNat

/-- Python `str.strip("<>")`: remove any leading/trailing `<` or `>`. -/
def isAngle (c : Char) : Bool := c == '<' || c == '>'

/-- Strip angle brackets from both ends of a string, as `fstr.strip("<>")`. -/
def stripAngle (s : String) : String :=
  String.mk (((s.data.dropWhile isAngle).reverse.dropWhile isAngle).reverse)

/-- The flags parse of `__flags__`: `slst = sstr.split(" ")`, then
`slst[2].strip("<>").split(",")` (an `IndexError` when there are fewer than
three tokens). -/
def parseFlags (sstr : String) : Except PyErr (List String) :=
  match (pySplit sstr " ").get? 2 with
  | some fstr => .ok (pySplit (stripAngle fstr) ",")
  | none => .error .indexError

/-- The mode parse of `__mode__`: scan for the first token containing
`"type"` (the loop breaks on the first hit); take the following token
(`IndexError` when there is none) and unpack `mstr.split("\n\t")` into exactly
two pieces — `mode, _ = mstr.split("\n\t")` raises `ValueError` when the split
does not produce exactly two. -/
def parseMode : List String → Except PyErr (Option String)
  | [] => .ok none
  | p :: rest =>
    if strContainsPy p "type" then
      match rest with
      | [] => .error .indexError
      | t :: _ =>
        match pySplit t "\n\t" with
        | [m, _] => .ok (some m)
        | _ => .error .valueError
    else parseMode rest

/-- The channel parse of `__channel__`: scan for the first token containing
`"channel"` (the loop breaks on the first hit); convert the following token
with `int(...)` (`ValueError` on a non-integer, `IndexError` when there is no
following token). -/
def parseChannel : List String → Except PyErr (Option Int)
  | [] => .ok none
  | p :: rest =>
    if strContainsPy p "channel" then
      match rest with
      | [] => .error .indexError
      | t :: _ =>
        match pyInt? t with
        | some n => .ok (some n)
        | none => .error .valueError
    else parseChannel rest

/-! ## Command strings

The exact command strings built by the methods (before `.split(" ")` hands
them to `subprocess`).  Note the `"]"` appended after the on/off argument in
the NOARP, MULTICAST and ALLMULTI toggles — identical in both modules — while
the PROMISC toggle has no such suffix. -/

def showCmd (iface : String) : String := "ip link show " ++ iface

def infoCmd (iface : String) : String := "iw dev " ++ iface ++ " info"

def setNameCmd (iface n : String) : String := "ip link set " ++ iface ++ " name " ++ n

def setAliasCmd (iface a : String) : String := "ip link set " ++ iface ++ " alias " ++ a

def setAddrCmd (iface a : String) : String := "ip link set " ++ iface ++ " address " ++ a

def setStateCmd (iface s : String) : String := "ip link set " ++ iface ++ " " ++ s

def setModeCmd (iface m : String) : String := "iw dev " ++ iface ++ " set type " ++ m

def setChannelCmd (iface : String) (c : Int) : String :=
  "iw dev " ++ iface ++ " set channel " ++ toString c

def noarpCmd (iface sopt : String) : String :=
  "ip link set " ++ iface ++ " arp " ++ sopt ++ "]"

def multicastCmd (iface sopt : String) : String :=
  "ip link set " ++ iface ++ " multicast " ++ sopt ++ "]"

def allmultiCmd (iface sopt : String) : String :=
  "ip link set " ++ iface ++ " allmulticast " ++ sopt ++ "]"

def promiscCmd (iface sopt : String) : String :=
  "ip link set " ++ iface ++ " promisc " ++ sopt

/-- A `setting` argument to `set_device_flag`: the callers pass `"on"`/`"off"`
strings or Python booleans.  `truthy` is Python truthiness; `eqTrue` is the
`set_flag == True` test used by the flag methods to choose `"on"`. -/
inductive Setting where
  | str (s : String)
  | bool (b : Bool)
  deriving Repr, DecidableEq

/-- Python truthiness of a setting value. -/
def Setting.truthy : Setting → Bool
  | .str s => !s.isEmpty
  | .bool b => b

/-- Python `set_flag == True`. -/
def Setting.eqTrue : Setting → Bool
  | .str _ => false
  | .bool b => b

/-- The snapshot object: the instance attributes of an `Interface` (wireless
fields included; they are populated only by the `WirelessInterface` methods).
`iface` is the identity handle every command is built from; `manager_backend`
is `none` when no backend was bound (for the generic strict-module `Interface`
the attribute is never even assigned — dereferencing it fails with an
`AttributeError` either way); `strict` is `strict_error_handling` of the
permissive module. -/
structure Iface where
  iface : String
  name : String := ""
  «alias» : Option String := none
  hwaddr : Option String := none
  permaddr : Option String := none
  state : Option String := none
  device_flags : List String := []
  mode : Option String := none
  channel : Option Int := none
  manager_backend : Option Unit := none
  strict : Bool := false
  deriving Repr, DecidableEq

/-- Read `ip link show iface` and apply the field parse for `marker`
(a read issues no mutation, so the system is unchanged). -/
def readParsed {sigma : Type} (iface marker : String) : M sigma (Option String) := fun sys =>
  (sys, parseField (pySplit (sys.showOut sys.state iface) " ") marker)

/-- Like `readParsed` but lowercasing the parsed token, as the state read does
(`state = slst[index + 1].lower()`). -/
def readParsedLower {sigma : Type} (iface marker : String) : M sigma (Option String) := fun sys =>
  (sys, (parseField (pySplit (sys.showOut sys.state iface) " ") marker).map (Option.map pyLower))

/-! ## The strict module: `linuxnetworkinterfaces.py`

Namespace `LNI`.  Mutation commands are issued with `subprocess.check_call`
inside `try/except`, so a non-zero exit status becomes `SystemCallError`. -/

namespace LNI

/-- `Interface.__name__(set_name=None)`: with an argument, run the rename
command, then assign `self.iface = set_name`; return `self.iface`.  There is
no system query here — the "read" is just the handle. -/
def nameA {sigma : Type} (self : Iface) (set_name : Option String) : M sigma (Iface × String) := fun sys =>
  match set_name with
  | none => (sys, .ok (self, self.iface))
  | some n =>
    match writeCmd PyErr.systemCallError (setNameCmd self.iface n) sys with
    | (sys1, .ok _) => (sys1, .ok ({ self with iface := n }, n))
    | (sys1, .error e) => (sys1, .error e)

/-- `Interface.__alias__(set_alias=None)`: optional write, then parse the
token after `"alias"` in the show output. -/
def aliasA {sigma : Type} (self : Iface) (set_alias : Option String) : M sigma (Option String) := fun sys =>
  match set_alias with
  | none => readParsed self.iface "alias" sys
  | some v =>
    match writeCmd PyErr.systemCallError (setAliasCmd self.iface v) sys with
    | (sys1, .ok _) => readParsed self.iface "alias" sys1
    | (sys1, .error e) => (sys1, .error e)

/-- `Interface.__hwaddr__(set_hwaddr=None)`: optional write, then parse the
token after `"link/ether"`. -/
def hwaddrA {sigma : Type} (self : Iface) (set_hwaddr : Option String) : M sigma (Option String) := fun sys =>
  match set_hwaddr with
  | none => readParsed self.iface "link/ether" sys
  | some v =>
    match writeCmd PyErr.systemCallError (setAddrCmd self.iface v) sys with
    | (sys1, .ok _) => readParsed self.iface "link/ether" sys1
    | (sys1, .error e) => (sys1, .error e)

/-- `Interface.__permaddr__()`: parse the token after `"permaddr"`. -/
def permaddrA {sigma : Type} (self : Iface) : M sigma (Option String) :=
  readParsed self.iface "permaddr"

/-- `Interface.__state__(set_state=None)`: optional write, then parse the
token after `"state"`, lowercased. -/
def stateA {sigma : Type} (self : Iface) (set_state : Option String) : M sigma (Option String) := fun sys =>
  match set_state with
  | none => readParsedLower self.iface "state" sys
  | some v =>
    match writeCmd PyErr.systemCallError (setStateCmd self.iface v) sys with
    | (sys1, .ok _) => readParsedLower self.iface "state" sys1
    | (sys1, .error e) => (sys1, .error e)

/-- `Interface.__flags__()`: `slst[2].strip("<>").split(",")`. -/
def flagsA {sigma : Type} (self : Iface) : M sigma (List String) := fun sys =>
  (sys, parseFlags (sys.showOut sys.state self.iface))

/-- Membership test against a fresh `__flags__()` read, shared tail of the
four flag methods. -/
def flagRead {sigma : Type} (self : Iface) (flagName : String) : M sigma Bool := fun sys =>
  match flagsA self sys with
  | (sys1, .ok fl) => (sys1, .ok (fl.contains flagName))
  | (sys1, .error e) => (sys1, .error e)

/-- `Interface.__noarp__(set_flag=None)`: optional toggle (note the command
carries the stray `"]"`), then `"NOARP" in self.__flags__()`. -/
def noarpA {sigma : Type} (self : Iface) (set_flag : Option Setting) : M sigma Bool := fun sys =>
  match set_flag with
  | none => flagRead self "NOARP" sys
  | some f =>
    match writeCmd PyErr.systemCallError (noarpCmd self.iface (if f.eqTrue then "on" else "off")) sys with
    | (sys1, .ok _) => flagRead self "NOARP" sys1
    | (sys1, .error e) => (sys1, .error e)

/-- `Interface.__multicast__(set_flag=None)`. -/
def multicastA {sigma : Type} (self : Iface) (set_flag : Option Setting) : M sigma Bool := fun sys =>
  match set_flag with
  | none => flagRead self "MULTICAST" sys
  | some f =>
    match writeCmd PyErr.systemCallError (multicastCmd self.iface (if f.eqTrue then "on" else "off")) sys with
    | (sys1, .ok _) => flagRead self "MULTICAST" sys1
    | (sys1, .error e) => (sys1, .error e)

/-- `Interface.__allmulti__(set_flag=None)`: note the membership test is
against `"ALLMULTICAST"`. -/
def allmultiA {sigma : Type} (self : Iface) (set_flag : Option Setting) : M sigma Bool := fun sys =>
  match set_flag with
  | none => flagRead self "ALLMULTICAST" sys
  | some f =>
    match writeCmd PyErr.systemCallError (allmultiCmd self.iface (if f.eqTrue then "on" else "off")) sys with
    | (sys1, .ok _) => flagRead self "ALLMULTICAST" sys1
    | (sys1, .error e) => (sys1, .error e)

/-- `Interface.__promisc__(set_flag=None)`: the one toggle without the stray
`"]"`. -/
def promiscA {sigma : Type} (self : Iface) (set_flag : Option Setting) : M sigma Bool := fun sys =>
  match set_flag with
  | none => flagRead self "PROMISC" sys
  | some f =>
    match writeCmd PyErr.systemCallError (promiscCmd self.iface (if f.eqTrue then "on" else "off")) sys with
    | (sys1, .ok _) => flagRead self "PROMISC" sys1
    | (sys1, .error e) => (sys1, .error e)

/-- `Interface.set_device_flag(flag, setting)` of the strict module.  A falsy
`setting` reaches `self.__error_handler__(...)` — a method this class does NOT
define, so the call itself dies with `AttributeError`.  The `"allmulti"`
branch looks up `self.__allmulti___` (three trailing underscores), which no
class defines: `AttributeError`.  An unrecognized flag raises a plain
`Exception`.  On a dispatch that returns `False` the method raises
`AttributeSetSilentFailError`. -/
def set_device_flag {sigma : Type} (self : Iface) (flag : String) (setting : Setting) : M sigma Bool := fun sys =>
  if !setting.truthy then (sys, .error (.attributeError "__error_handler__"))
  else
    let finish : Sys sigma × Except PyErr Bool → Sys sigma × Except PyErr Bool := fun r =>
      match r with
      | (sys1, .ok b) =>
        if !b then (sys1, .error (.attributeSetSilentFailError flag)) else (sys1, .ok true)
      | x => x
    if pyLower flag = "noarp" then finish (noarpA self (some setting) sys)
    else if pyLower flag = "multicast" then finish (multicastA self (some setting) sys)
    else if pyLower flag = "allmulti" then (sys, .error (.attributeError "__allmulti___"))
    else if pyLower flag = "promisc" then finish (promiscA self (some setting) sys)
    else (sys, .error (.pyException ("Unsupported flag " ++ flag)))

/-- `Interface.start_management()`: `self.manager_backend.include()` with no
guard — with no backend bound this is an `AttributeError` (either the missing
`manager_backend` attribute on the generic class, or `include` on `None`).
With a backend bound the call is delegated to the external manager object
(an external collaborator, modelled as succeeding). -/
def start_management {sigma : Type} (self : Iface) : M sigma Unit := fun sys =>
  match self.manager_backend with
  | none => (sys, .error (.attributeError "include"))
  | some _ => (sys, .ok ())

/-- `Interface.stop_management()`: `self.manager_backend.exclude()`, same
shape as `start_management`. -/
def stop_management {sigma : Type} (self : Iface) : M sigma Unit := fun sys =>
  match self.manager_backend with
  | none => (sys, .error (.attributeError "exclude"))
  | some _ => (sys, .ok ())

/-- `Interface.set_name(name)`: capture `cur = self.__name__()`, write via
`self.__name__(set_name=name)` into `self.name`, raise
`AttributeSetSilentFailError` when `self.name == cur`. -/
def set_name {sigma : Type} (self : Iface) (name : String) : M sigma (Iface × String) := fun sys =>
  match nameA self none sys with
  | (sys1, .error e) => (sys1, .error e)
  | (sys1, .ok (_, cur)) =>
    match nameA self (some name) sys1 with
    | (sys2, .error e) => (sys2, .error e)
    | (sys2, .ok (self1, n)) =>
      let self2 := { self1 with name := n }
      if self2.name = cur then (sys2, .error (.attributeSetSilentFailError "name"))
      else (sys2, .ok (self2, self2.name))

/-- `Interface.set_alias(alias)`: `self.alias = self.__alias__(set_alias=alias)`
and return it — NO old/new comparison is performed here, unlike the other
setters of this module. -/
def set_alias {sigma : Type} (self : Iface) (a : String) : M sigma (Iface × Option String) := fun sys =>
  match aliasA self (some a) sys with
  | (sys1, .error e) => (sys1, .error e)
  | (sys1, .ok v) => (sys1, .ok ({ self with «alias» := v }, v))

/-- `Interface.set_hwaddr(hwaddr)`: capture the pre-write read, write and
re-read into `self.hwaddr`, raise `AttributeSetSilentFailError` when
unchanged. -/
def set_hwaddr {sigma : Type} (self : Iface) (hw : String) : M sigma (Iface × Option String) := fun sys =>
  match hwaddrA self none sys with
  | (sys1, .error e) => (sys1, .error e)
  | (sys1, .ok cur) =>
    match hwaddrA self (some hw) sys1 with
    | (sys2, .error e) => (sys2, .error e)
    | (sys2, .ok v) =>
      let self2 := { self with hwaddr := v }
      if self2.hwaddr = cur then (sys2, .error (.attributeSetSilentFailError "hwaddr"))
      else (sys2, .ok (self2, v))

/-- `Interface.set_state(state)`: same pattern as `set_hwaddr` on the admin
state. -/
def set_state {sigma : Type} (self : Iface) (st : String) : M sigma (Iface × Option String) := fun sys =>
  match stateA self none sys with
  | (sys1, .error e) => (sys1, .error e)
  | (sys1, .ok cur) =>
    match stateA self (some st) sys1 with
    | (sys2, .error e) => (sys2, .error e)
    | (sys2, .ok v) =>
      let self2 := { self with state := v }
      if self2.state = cur then (sys2, .error (.attributeSetSilentFailError "state"))
      else (sys2, .ok (self2, v))

/-- `WirelessInterface.__mode__(set_mode=None)`: optional `iw set type`
write, then parse the `iw dev <iface> info` output. -/
def modeA {sigma : Type} (self : Iface) (set_mode : Option String) : M sigma (Option String) := fun sys =>
  match set_mode with
  | none => (sys, parseMode (pySplit (sys.iwInfo sys.state self.iface) " "))
  | some m =>
    match writeCmd PyErr.systemCallError (setModeCmd self.iface m) sys with
    | (sys1, .ok _) => (sys1, parseMode (pySplit (sys1.iwInfo sys1.state self.iface) " "))
    | (sys1, .error e) => (sys1, .error e)

/-- `WirelessInterface.__channel__(set_channel=None)`: optional
`iw set channel` write, then parse the info output. -/
def channelA {sigma : Type} (self : Iface) (set_channel : Option Int) : M sigma (Option Int) := fun sys =>
  match set_channel with
  | none => (sys, parseChannel (pySplit (sys.iwInfo sys.state self.iface) " "))
  | some c =>
    match writeCmd PyErr.systemCallError (setChannelCmd self.iface c) sys with
    | (sys1, .ok _) => (sys1, parseChannel (pySplit (sys1.iwInfo sys1.state self.iface) " "))
    | (sys1, .error e) => (sys1, .error e)

/-- `WirelessInterface.set_mode(mode)`: pre-read, write/re-read into
`self.mode`, raise `AttributeSetSilentFailError` when unchanged. -/
def set_mode {sigma : Type} (self : Iface) (m : String) : M sigma (Iface × Option String) := fun sys =>
  match modeA self none sys with
  | (sys1, .error e) => (sys1, .error e)
  | (sys1, .ok cur) =>
    match modeA self (some m) sys1 with
    | (sys2, .error e) => (sys2, .error e)
    | (sys2, .ok v) =>
      let self2 := { self with mode := v }
      if self2.mode = cur then (sys2, .error (.attributeSetSilentFailError "mode"))
      else (sys2, .ok (self2, v))

/-- `WirelessInterface.set_channel(channel)`: pre-read, write/re-read into
`self.channel`, raise `AttributeSetSilentFailError` when unchanged. -/
def set_channel {sigma : Type} (self : Iface) (c : Int) : M sigma (Iface × Option Int) := fun sys =>
  match channelA self none sys with
  | (sys1, .error e) => (sys1, .error e)
  | (sys1, .ok cur) =>
    match channelA self (some c) sys1 with
    | (sys2, .error e) => (sys2, .error e)
    | (sys2, .ok v) =>
      let self2 := { self with channel := v }
      if self2.channel = cur then (sys2, .error (.attributeSetSilentFailError "channel"))
      else (sys2, .ok (self2, v))

end LNI

/-! ## The permissive module: `networkinterfaces.py`

Namespace `NI`.  Mutation commands are issued with `subprocess.check_output`
and no `try/except`, so a non-zero exit status escapes as the raw
`CalledProcessError`.  The class carries `strict_error_handling`
(`Iface.strict`) and routes anomalies through `__error_handler__`. -/

namespace NI

/-- `Interface.__error_handler__(msg)`: in strict mode log and raise
`Exception(msg)`; otherwise log a warning and return `None`.  (The logger
calls have no control-flow effect and are not modelled.) -/
def errorHandler {sigma : Type} (self : Iface) (msg : String) : M sigma Unit := fun sys =>
  if self.strict then (sys, .error (.pyException msg)) else (sys, .ok ())

/-- `Interface.__name__(set_name=None)` of the permissive module: rename via
`check_output` (uncaught `CalledProcessError` on failure), assign
`self.iface`, return it. -/
def nameA {sigma : Type} (self : Iface) (set_name : Option String) : M sigma (Iface × String) := fun sys =>
  match set_name with
  | none => (sys, .ok (self, self.iface))
  | some n =>
    match writeCmd PyErr.calledProcessError (setNameCmd self.iface n) sys with
    | (sys1, .ok _) => (sys1, .ok ({ self with iface := n }, n))
    | (sys1, .error e) => (sys1, .error e)

/-- `Interface.__alias__(set_alias=None)` of the permissive module. -/
def aliasA {sigma : Type} (self : Iface) (set_alias : Option String) : M sigma (Option String) := fun sys =>
  match set_alias with
  | none => readParsed self.iface "alias" sys
  | some v =>
    match writeCmd PyErr.calledProcessError (setAliasCmd self.iface v) sys with
    | (sys1, .ok _) => readParsed self.iface "alias" sys1
    | (sys1, .error e) => (sys1, .error e)

/-- `Interface.__hwaddr__(set_hwaddr=None)` of the permissive module. -/
def hwaddrA {sigma : Type} (self : Iface) (set_hwaddr : Option String) : M sigma (Option String) := fun sys =>
  match set_hwaddr with
  | none => readParsed self.iface "link/ether" sys
  | some v =>
    match writeCmd PyErr.calledProcessError (setAddrCmd self.iface v) sys with
    | (sys1, .ok _) => readParsed self.iface "link/ether" sys1
    | (sys1, .error e) => (sys1, .error e)

/-- `Interface.__state__(set_state=None)` of the permissive module. -/
def stateA {sigma : Type} (self : Iface) (set_state : Option String) : M sigma (Option String) := fun sys =>
  match set_state with
  | none => readParsedLower self.iface "state" sys
  | some v =>
    match writeCmd PyErr.calledProcessError (setStateCmd self.iface v) sys with
    | (sys1, .ok _) => readParsedLower self.iface "state" sys1
    | (sys1, .error e) => (sys1, .error e)

/-- `Interface.__flags__()` of the permissive module. -/
def flagsA {sigma : Type} (self : Iface) : M sigma (List String) := fun sys =>
  (sys, parseFlags (sys.showOut sys.state self.iface))

/-- Membership test against a fresh `__flags__()` read. -/
def flagRead {sigma : Type} (self : Iface) (flagName : String) : M sigma Bool := fun sys =>
  match flagsA self sys with
  | (sys1, .ok fl) => (sys1, .ok (fl.contains flagName))
  | (sys1, .error e) => (sys1, .error e)

/-- `Interface.__noarp__(set_flag=None)` of the permissive module (same stray
`"]"` in the toggle command). -/
def noarpA {sigma : Type} (self : Iface) (set_flag : Option Setting) : M sigma Bool := fun sys =>
  match set_flag with
  | none => flagRead self "NOARP" sys
  | some f =>
    match writeCmd PyErr.calledProcessError (noarpCmd self.iface (if f.eqTrue then "on" else "off")) sys with
    | (sys1, .ok _) => flagRead self "NOARP" sys1
    | (sys1, .error e) => (sys1, .error e)

/-- `Interface.__multicast__(set_flag=None)` of the permissive module. -/
def multicastA {sigma : Type} (self : Iface) (set_flag : Option Setting) : M sigma Bool := fun sys =>
  match set_flag with
  | none => flagRead self "MULTICAST" sys
  | some f =>
    match writeCmd PyErr.calledProcessError (multicastCmd self.iface (if f.eqTrue then "on" else "off")) sys with
    | (sys1, .ok _) => flagRead self "MULTICAST" sys1
    | (sys1, .error e) => (sys1, .error e)

/-- `Interface.__allmulti__(set_flag=None)` of the permissive module. -/
def allmultiA {sigma : Type} (self : Iface) (set_flag : Option Setting) : M sigma Bool := fun sys =>
  match set_flag with
  | none => flagRead self "ALLMULTICAST" sys
  | some f =>
    match writeCmd PyErr.calledProcessError (allmultiCmd self.iface (if f.eqTrue then "on" else "off")) sys with
    | (sys1, .ok _) => flagRead self "ALLMULTICAST" sys1
    | (sys1, .error e) => (sys1, .error e)

/-- `Interface.__promisc__(set_flag=None)` of the permissive module. -/
def promiscA {sigma : Type} (self : Iface) (set_flag : Option Setting) : M sigma Bool := fun sys =>
  match set_flag with
  | none => flagRead self "PROMISC" sys
  | some f =>
    match writeCmd PyErr.calledProcessError (promiscCmd self.iface (if f.eqTrue then "on" else "off")) sys with
    | (sys1, .ok _) => flagRead self "PROMISC" sys1
    | (sys1, .error e) => (sys1, .error e)

/-- `Interface.up()`.  The local variable `state` is assigned ONLY in the
branch that performs the toggle; when the interface is already up the code
runs the error handler and then evaluates `if state != "up"` on the
never-assigned local, which in Python is an `UnboundLocalError`. -/
def up {sigma : Type} (self : Iface) : M sigma Bool := fun sys =>
  match stateA self none sys with
  | (sys1, .error e) => (sys1, .error e)
  | (sys1, .ok st) =>
    if st ≠ some "up" then
      match stateA self (some "up") sys1 with
      | (sys2, .error e) => (sys2, .error e)
      | (sys2, .ok st2) =>
        if st2 ≠ some "up" then
          match errorHandler self "failed to bring up" sys2 with
          | (sys3, .error e) => (sys3, .error e)
          | (sys3, .ok _) => (sys3, .ok false)
        else (sys2, .ok true)
    else
      match errorHandler self "interface is already up" sys1 with
      | (sys2, .error e) => (sys2, .error e)
      | (sys2, .ok _) => (sys2, .error (.unboundLocalError "state"))

/-- `Interface.down()`: symmetric to `up`, with the same unbound local
`state` when the interface is already down. -/
def down {sigma : Type} (self : Iface) : M sigma Bool := fun sys =>
  match stateA self none sys with
  | (sys1, .error e) => (sys1, .error e)
  | (sys1, .ok st) =>
    if st ≠ some "down" then
      match stateA self (some "down") sys1 with
      | (sys2, .error e) => (sys2, .error e)
      | (sys2, .ok st2) =>
        if st2 ≠ some "down" then
          match errorHandler self "failed to take down" sys2 with
          | (sys3, .error e) => (sys3, .error e)
          | (sys3, .ok _) => (sys3, .ok false)
        else (sys2, .ok true)
    else
      match errorHandler self "interface is already down" sys1 with
      | (sys2, .error e) => (sys2, .error e)
      | (sys2, .ok _) => (sys2, .error (.unboundLocalError "state"))

/-- Shared tail of `set_device_flag`: `if not flag_set:` run the error
handler and return `False`, else return `True`.  (The handler message also
interpolates a fresh `self.__flags__()` read; that query affects only the
message text and is not modelled.) -/
def finishFlag {sigma : Type} (self : Iface) (flag : String) (r : Sys sigma × Except PyErr Bool) :
    Sys sigma × Except PyErr Bool :=
  match r with
  | (sys1, .ok b) =>
    if !b then
      match errorHandler self ("failed to set flag " ++ flag) sys1 with
      | (sys2, .error e) => (sys2, .error e)
      | (sys2, .ok _) => (sys2, .ok false)
    else (sys1, .ok true)
  | x => x

/-- `Interface.set_device_flag(flag, setting)` of the permissive module: a
falsy `setting` goes through `__error_handler__` (raise in strict mode,
continue otherwise); the dispatch on `flag.lower()` routes `"allmulti"` to the
nonexistent `self.__allmulti___` — an `AttributeError`; an unrecognized flag
goes through the handler and returns `False`. -/
def set_device_flag {sigma : Type} (self : Iface) (flag : String) (setting : Setting) : M sigma Bool := fun sys =>
  match (if !setting.truthy then errorHandler self "Invalid device flag setting" sys
         else (sys, .ok ())) with
  | (sys0, .error e) => (sys0, .error e)
  | (sys0, .ok _) =>
    if pyLower flag = "noarp" then finishFlag self flag (noarpA self (some setting) sys0)
    else if pyLower flag = "multicast" then finishFlag self flag (multicastA self (some setting) sys0)
    else if pyLower flag = "allmulti" then (sys0, .error (.attributeError "__allmulti___"))
    else if pyLower flag = "promisc" then finishFlag self flag (promiscA self (some setting) sys0)
    else
      match errorHandler self ("Invalid device flag " ++ flag) sys0 with
      | (sys1, .error e) => (sys1, .error e)
      | (sys1, .ok _) => (sys1, .ok false)

/-- `WirelessInterface.__mode__(set_mode=None)` of the permissive module. -/
def modeA {sigma : Type} (self : Iface) (set_mode : Option String) : M sigma (Option String) := fun sys =>
  match set_mode with
  | none => (sys, parseMode (pySplit (sys.iwInfo sys.state self.iface) " "))
  | some m =>
    match writeCmd PyErr.calledProcessError (setModeCmd self.iface m) sys with
    | (sys1, .ok _) => (sys1, parseMode (pySplit (sys1.iwInfo sys1.state self.iface) " "))
    | (sys1, .error e) => (sys1, .error e)

/-- `WirelessInterface.__channel__(set_channel=None)` of the permissive
module. -/
def channelA {sigma : Type} (self : Iface) (set_channel : Option Int) : M sigma (Option Int) := fun sys =>
  match set_channel with
  | none => (sys, parseChannel (pySplit (sys.iwInfo sys.state self.iface) " "))
  | some c =>
    match writeCmd PyErr.calledProcessError (setChannelCmd self.iface c) sys with
    | (sys1, .ok _) => (sys1, parseChannel (pySplit (sys1.iwInfo sys1.state self.iface) " "))
    | (sys1, .error e) => (sys1, .error e)

/-- `WirelessInterface.start_management()` of the permissive module:
`self.manager_backend.include()` with no guard. -/
def start_management {sigma : Type} (self : Iface) : M sigma Unit := fun sys =>
  match self.manager_backend with
  | none => (sys, .error (.attributeError "include"))
  | some _ => (sys, .ok ())

/-- `WirelessInterface.stop_management()` of the permissive module. -/
def stop_management {sigma : Type} (self : Iface) : M sigma Unit := fun sys =>
  match self.manager_backend with
  | none => (sys, .error (.attributeError "exclude"))
  | some _ => (sys, .ok ())

/-- `WirelessInterface.set_name(name)` of the permissive module:
`self.name = self.__name__(set_name=name); return self.name` — no old/new
comparison. -/
def w_set_name {sigma : Type} (self : Iface) (name : String) : M sigma (Iface × String) := fun sys =>
  match nameA self (some name) sys with
  | (sys1, .error e) => (sys1, .error e)
  | (sys1, .ok (self1, n)) => (sys1, .ok ({ self1 with name := n }, n))

/-- `WirelessInterface.set_hwaddr(hwaddr)` of the permissive module — no
old/new comparison. -/
def w_set_hwaddr {sigma : Type} (self : Iface) (hw : String) : M sigma (Iface × Option String) := fun sys =>
  match hwaddrA self (some hw) sys with
  | (sys1, .error e) => (sys1, .error e)
  | (sys1, .ok v) => (sys1, .ok ({ self with hwaddr := v }, v))

/-- `WirelessInterface.set_state(state)` of the permissive module — no
old/new comparison. -/
def w_set_state {sigma : Type} (self : Iface) (st : String) : M sigma (Iface × Option String) := fun sys =>
  match stateA self (some st) sys with
  | (sys1, .error e) => (sys1, .error e)
  | (sys1, .ok v) => (sys1, .ok ({ self with state := v }, v))

/-- `WirelessInterface.set_mode(mode)` of the permissive module — no old/new
comparison. -/
def w_set_mode {sigma : Type} (self : Iface) (m : String) : M sigma (Iface × Option String) := fun sys =>
  match modeA self (some m) sys with
  | (sys1, .error e) => (sys1, .error e)
  | (sys1, .ok v) => (sys1, .ok ({ self with mode := v }, v))

/-- `WirelessInterface.set_channel(channel)` of the permissive module — no
old/new comparison. -/
def w_set_channel {sigma : Type} (self : Iface) (c : Int) : M sigma (Iface × Option Int) := fun sys =>
  match channelA self (some c) sys with
  | (sys1, .error e) => (sys1, .error e)
  | (sys1, .ok v) => (sys1, .ok ({ self with channel := v }, v))

end NI

/-! ## Concrete systems and interfaces used to evaluate the theorems -/

/-- A representative `ip link show` output (state UP), with an alias, a MAC,
and the flag field at token index 2. -/
def outA : String :=
  "2: eth0: <BROADCAST,MULTICAST,UP> mtu alias aliasA link/ether aa:aa state UP extra"

/-- A second show output differing in every parsed field (state DOWN). -/
def outB : String :=
  "2: eth0: <BROADCAST,UP> mtu alias aliasB link/ether bb:bb state DOWN extra"

/-- A representative `iw dev ... info` output: type managed, channel 6. -/
def infoA : String := "Interface: type managed\n\tx channel 6 mhz"

/-- A second info output: type monitor, channel 11. -/
def infoB : String := "Interface: type monitor\n\tx channel 11 mhz"

/-- A system on which every command succeeds and changes nothing: show output
always `outA`, info always `infoA`. -/
def sysNoop : Sys Unit :=
  { state := (), showOut := fun _ _ => outA, iwInfo := fun _ _ => infoA,
    run := fun s _ => some s }

/-- A system on which every command fails with a non-zero exit status. -/
def sysFail : Sys Unit :=
  { state := (), showOut := fun _ _ => outA, iwInfo := fun _ _ => infoA,
    run := fun _ _ => none }

/-- A two-state system: before any write the observations are `outA`/`infoA`,
any successful write moves to the second state where they are `outB`/`infoB`. -/
def sysFlip : Sys Bool :=
  { state := false,
    showOut := fun b _ => if b then outB else outA,
    iwInfo := fun b _ => if b then infoB else infoA,
    run := fun _ _ => some true }

/-- A recording system: the state is the list of mutation commands executed so
far; every command succeeds.  Show output reports state UP. -/
def sysRecordUp : Sys (List String) :=
  { state := [], showOut := fun _ _ => outA, iwInfo := fun _ _ => infoA,
    run := fun s c => some (s ++ [c]) }

/-- Like `sysRecordUp` but the show output reports state DOWN. -/
def sysRecordDown : Sys (List String) :=
  { state := [], showOut := fun _ _ => outB, iwInfo := fun _ _ => infoA,
    run := fun s c => some (s ++ [c]) }

/-- A coercing system: its state is the device's actual kernel-side name; a
rename command "succeeds" (exit 0) but the kernel registers the name
`"weird0"` instead of the requested one. -/
def sysCoerce : Sys String :=
  { state := "eth0", showOut := fun s _ => "dev: " ++ s ++ ": <UP> x",
    iwInfo := fun _ _ => "", run := fun _ _ => some "weird0" }

/-- A system whose show output contains the `"alias"` marker twice: the token
after the FIRST occurrence is `"a"`, the token after the LAST is `"b"`. -/
def sysTwoMarks : Sys Unit :=
  { state := (), showOut := fun _ _ => "x alias a alias b extra",
    iwInfo := fun _ _ => "", run := fun s _ => some s }

/-- An interface snapshot bound to `eth0`, permissive error handling, no
manager backend. -/
def ifc0 : Iface := { iface := "eth0" }

/-- Like `ifc0` but with strict error handling. -/
def ifcStrict : Iface := { iface := "eth0", strict := true }

/-! ## Theorems -/

/-- C2 (code bug).  On a permissive-mode interface whose admin-state query
parses to `"up"`, `up()` does not invoke the external toggle command (the
recording system's command list stays empty) — but instead of the claimed
warn-and-return no-op it crashes: after the error-handler warning the code
evaluates `if state != "up"` on the local variable `state`, which was never
assigned in this branch, an `UnboundLocalError`.  `down()` fails the same way
when the state is already `"down"`. -/
theorem up_down_crash_when_state_already_reached :
    (NI.stateA ifc0 none sysRecordUp).2 = .ok (some "up")
    ∧ (NI.up ifc0 sysRecordUp).2 = .error (.unboundLocalError "state")
    ∧ (NI.up ifc0 sysRecordUp).1.state = []
    ∧ (NI.stateA ifc0 none sysRecordDown).2 = .ok (some "down")
    ∧ (NI.down ifc0 sysRecordDown).2 = .error (.unboundLocalError "state")
    ∧ (NI.down ifc0 sysRecordDown).1.state = [] :=
  ⟨by decide, by decide, by decide, by decide, by decide, by decide⟩

/-- C6 (confirmed).  On a query output whose flag field (token index 2) is
`"<BROADCAST,MULTICAST,UP>"`, the flag read parses the collection
`[BROADCAST, MULTICAST, UP]`, the multicast membership read reports `true`
and the noarp membership read reports `false`. -/
theorem flags_scenario_broadcast_multicast_up :
    (NI.flagsA ifc0 sysNoop).2 = .ok ["BROADCAST", "MULTICAST", "UP"]
    ∧ (NI.multicastA ifc0 none sysNoop).2 = .ok true
    ∧ (NI.noarpA ifc0 none sysNoop).2 = .ok false :=
  ⟨by decide, by decide, by decide⟩

/-- C1 (counterexample).  `Interface.set_alias` of the strict module performs
no old/new comparison: on a system where the alias write is a silent no-op
(the show output never changes, so the post-write read equals the pre-write
read `some "aliasA"`), the call reports success instead of failing with
`AttributeSetSilentFailError`. -/
theorem set_alias_reports_success_when_unchanged :
    (LNI.aliasA ifc0 none sysNoop).2 = .ok (some "aliasA")
    ∧ (LNI.set_alias ifc0 "newalias" sysNoop).2
        = .ok ({ ifc0 with «alias» := some "aliasA" }, some "aliasA") :=
  ⟨by decide, by decide⟩

/-- C3 (counterexample).  On an output containing the marker `"alias"` twice
(`"x alias a alias b extra"`), the attribute read returns the token after the
LAST occurrence (`"b"`), not the token after the first occurrence (`"a"`)
that the claim requires: the parse loop overwrites its accumulator on every
occurrence. -/
theorem field_parse_returns_last_occurrence_token :
    (LNI.aliasA ifc0 none sysTwoMarks).2 = .ok (some "b")
    ∧ parseField ["x", "alias", "a", "alias", "b"] "alias" = .ok (some "b")
    ∧ (Except.ok (some "b") : Except PyErr (Option String)) ≠ .ok (some "a") :=
  ⟨by decide, by decide, by decide⟩

/-- C4 (counterexample).  In the permissive module with
`strict_error_handling=True`, calling `set_device_flag("allmulti", False)`
raises the plain validation `Exception` from `__error_handler__` (the falsy
`setting` fails the guard before the dispatch), not an attribute-lookup
error: the claim's "every setting value" is too strong. -/
theorem strict_falsy_allmulti_validation_exception :
    (NI.set_device_flag ifcStrict "allmulti" (Setting.bool false) sysNoop).2
      = .error (.pyException "Invalid device flag setting")
    ∧ (Except.error (PyErr.pyException "Invalid device flag setting") : Except PyErr Bool)
        ≠ .error (.attributeError "__allmulti___") :=
  ⟨by decide, by decide⟩

/-- C5 (counterexample).  With no manager backend bound,
`start_management()` dereferences the missing handle and dies with a Python
`AttributeError` — it does not fail with the `ManagerNotConfiguredError` the
claim names (no code in the repository defines or raises that error). -/
theorem management_raises_attribute_error_concrete :
    (NI.start_management ifc0 sysNoop).2 = .error (.attributeError "include")
    ∧ (NI.start_management ifc0 sysNoop).2 ≠ .error .managerNotConfiguredError
    ∧ (LNI.start_management ifc0 sysNoop).2 ≠ .error .managerNotConfiguredError :=
  ⟨by decide, by decide, by decide⟩

/-- C8 (counterexample).  `set_name` never re-reads after its write: on a
system whose rename command exits 0 but registers the kernel-side name
`"weird0"` instead of the requested `"eth1"`, the call succeeds and the
snapshot `name` field holds the REQUESTED value `"eth1"`, diverging from the
freshly observable system value `"weird0"` — the claim's "freshly re-read,
not requested" fails for the name field. -/
theorem set_name_snapshot_not_reread :
    (LNI.set_name ifc0 "eth1" sysCoerce).2
      = .ok ({ ifc0 with iface := "eth1", name := "eth1" }, "eth1")
    ∧ (LNI.set_name ifc0 "eth1" sysCoerce).1.state = "weird0"
    ∧ ("eth1" : String) ≠ "weird0" :=
  ⟨by decide, by decide, by decide⟩

/-- C10 (confirmed).  For every interface name and every on/off value, the
command strings built by the NOARP, MULTICAST and ALLMULTI toggle paths end
in a stray `']'` character (appended right after the on/off argument), while
the PROMISC toggle path builds its command without that suffix. -/
theorem flag_toggle_command_stray_bracket (iface : String) (f : Bool) :
    ((noarpCmd iface (if f then "on" else "off")).data.getLast? = some ']')
    ∧ ((multicastCmd iface (if f then "on" else "off")).data.getLast? = some ']')
    ∧ ((allmultiCmd iface (if f then "on" else "off")).data.getLast? = some ']')
    ∧ ((promiscCmd iface (if f then "on" else "off")).data.getLast? ≠ some ']') := by
  have hbr : ∀ s : String, (s ++ "]").data.getLast? = some ']' := by
    intro s
    rw [String.data_append]
    exact List.getLast?_append_cons s.data ']' []
  refine ⟨hbr _, hbr _, hbr _, ?_⟩
  cases f
  · show (promiscCmd iface "off").data.getLast? ≠ some ']'
    rw [promiscCmd, String.data_append, show ("off").data = ['o', 'f', 'f'] from rfl,
      List.getLast?_append_cons]
    decide
  · show (promiscCmd iface "on").data.getLast? ≠ some ']'
    rw [promiscCmd, String.data_append, show ("on").data = ['o', 'n'] from rfl,
      List.getLast?_append_cons]
    decide

/-- Helper: the parse loop leaves its accumulator untouched on a token list
that does not contain the marker. -/
theorem parseFieldAux_of_not_mem (marker : String) (acc : Option String) :
    ∀ l : List String, marker ∉ l → parseFieldAux marker acc l = .ok acc := by
  intro l
  induction l with
  | nil => intro _; rfl
  | cons p rest ih =>
    intro h
    rw [List.mem_cons, not_or] at h
    simp only [parseFieldAux]
    rw [if_neg (fun hpm => h.1 hpm.symm)]
    exact ih h.2

/-- Helper: on a token list ending in `marker :: t :: l2` with no further
occurrence of the marker, the parse loop ends holding `t`, whatever the
accumulator held before and whatever preceded. -/
theorem parseFieldAux_append_last (marker t : String) (l2 : List String)
    (hm : marker ∉ t :: l2) :
    ∀ (l1 : List String) (acc : Option String),
      parseFieldAux marker acc (l1 ++ marker :: t :: l2) = .ok (some t) := by
  intro l1
  induction l1 with
  | nil =>
    intro acc
    simp only [List.nil_append, parseFieldAux, if_pos rfl]
    exact parseFieldAux_of_not_mem marker (some t) (t :: l2) hm
  | cons x xs ih =>
    intro acc
    have hL : xs ++ marker :: t :: l2 ≠ [] := by simp
    rw [List.cons_append]
    simp only [parseFieldAux]
    by_cases hx : x = marker
    · rw [if_pos hx]
      rcases hxr : xs ++ marker :: t :: l2 with _ | ⟨y, ys⟩
      · exact absurd hxr hL
      · show parseFieldAux marker (some y) (y :: ys) = .ok (some t)
        rw [← hxr]
        exact ih (some y)
    · rw [if_neg hx]
      exact ih acc

/-- C3 (amended, for the corrected claim).  The field parse used by the
attribute reads returns the token immediately following the LAST occurrence
of the marker (not the first, as the claim stated — see the counterexample),
and returns `none` — not an empty string and not a crash — whenever the
marker does not occur in the token list. -/
theorem parseField_last_occurrence_or_absent :
    (∀ (l1 l2 : List String) (marker t : String), marker ∉ t :: l2 →
        parseField (l1 ++ marker :: t :: l2) marker = .ok (some t))
    ∧ (∀ (l : List String) (marker : String), marker ∉ l →
        parseField l marker = .ok none) := by
  constructor
  · intro l1 l2 marker t hm
    exact parseFieldAux_append_last marker t l2 hm l1 none
  · intro l marker h
    exact parseFieldAux_of_not_mem marker none l h

/-- Evaluation of `parseField_last_occurrence_or_absent` at concrete inputs:
a list whose last (and only) marker occurrence is followed by `"a"`, and a
list without the marker. -/
theorem parseField_last_occurrence_or_absent_instance :
    parseField ["x", "alias", "a"] "alias" = .ok (some "a")
    ∧ parseField ["x", "y"] "alias" = .ok none :=
  ⟨parseField_last_occurrence_or_absent.1 ["x"] [] "alias" "a" (by decide),
   parseField_last_occurrence_or_absent.2 ["x", "y"] "alias" (by decide)⟩

/-- C5 (amended, for the corrected claim).  For every interface with no
manager backend bound, `start_management()` and `stop_management()` fail, in
both modules and regardless of the error-handling mode, with a Python
`AttributeError` from dereferencing the missing backend handle — not with
the spec's `ManagerNotConfiguredError`, which no code defines or raises. -/
theorem management_without_backend_attribute_error :
    ∀ (sig : Type) (sys : Sys sig) (self : Iface), self.manager_backend = none →
      (LNI.start_management self sys).2 = .error (.attributeError "include")
      ∧ (LNI.stop_management self sys).2 = .error (.attributeError "exclude")
      ∧ (NI.start_management self sys).2 = .error (.attributeError "include")
      ∧ (NI.stop_management self sys).2 = .error (.attributeError "exclude") := by
  intro sig sys self h
  refine ⟨?_, ?_, ?_, ?_⟩ <;>
    simp [LNI.start_management, LNI.stop_management, NI.start_management,
      NI.stop_management, h]

/-- Evaluation of `management_without_backend_attribute_error` on the
backend-less `ifc0`. -/
theorem management_without_backend_attribute_error_instance :
    (LNI.start_management ifc0 sysNoop).2 = .error (.attributeError "include")
    ∧ (LNI.stop_management ifc0 sysNoop).2 = .error (.attributeError "exclude")
    ∧ (NI.start_management ifc0 sysNoop).2 = .error (.attributeError "include")
    ∧ (NI.stop_management ifc0 sysNoop).2 = .error (.attributeError "exclude") :=
  management_without_backend_attribute_error Unit sysNoop ifc0 rfl

/-- C4 (amended, for the corrected claim).  Calling `set_device_flag` with
flag `"allmulti"` throws an attribute-lookup error instead of toggling the
flag, except in one corner: in the strict module the error is always an
`AttributeError` (for a truthy setting it is the dispatch to the nonexistent
triple-underscore `__allmulti___`; for a falsy setting the missing
`__error_handler__` method is hit first); in the permissive module the
`__allmulti___` `AttributeError` is thrown whenever the setting is truthy or
strict error handling is off — with a falsy setting in strict mode the
validation `Exception` fires before the dispatch (see the counterexample). -/
theorem allmulti_dispatch_attribute_error :
    ∀ (sig : Type) (sys : Sys sig) (self : Iface) (setting : Setting),
      ((LNI.set_device_flag self "allmulti" setting sys).2
          = .error (.attributeError
              (if setting.truthy then "__allmulti___" else "__error_handler__")))
      ∧ (setting.truthy = true ∨ self.strict = false →
          (NI.set_device_flag self "allmulti" setting sys).2
            = .error (.attributeError "__allmulti___")) := by
  intro sig sys self setting
  have e1 : pyLower "allmulti" = "allmulti" := by decide
  have n1 : ¬("allmulti" : String) = "noarp" := by decide
  have n2 : ¬("allmulti" : String) = "multicast" := by decide
  constructor
  · cases hst : setting.truthy
    · simp [LNI.set_device_flag, hst]
    · simp [LNI.set_device_flag, hst, e1, n1, n2]
  · intro hd
    cases hst : setting.truthy
    · have hstr : self.strict = false := by
        rcases hd with h | h
        · rw [hst] at h; exact absurd h (by decide)
        · exact h
      simp [NI.set_device_flag, NI.errorHandler, hst, hstr, e1, n1, n2]
    · simp [NI.set_device_flag, hst, e1, n1, n2]

/-- Evaluation of `allmulti_dispatch_attribute_error` at the truthy setting
`"on"` for both modules. -/
theorem allmulti_dispatch_attribute_error_instance :
    (LNI.set_device_flag ifc0 "allmulti" (Setting.str "on") sysNoop).2
      = .error (.attributeError "__allmulti___")
    ∧ (NI.set_device_flag ifc0 "allmulti" (Setting.str "on") sysNoop).2
      = .error (.attributeError "__allmulti___") :=
  ⟨(allmulti_dispatch_attribute_error Unit sysNoop ifc0 (Setting.str "on")).1,
   (allmulti_dispatch_attribute_error Unit sysNoop ifc0 (Setting.str "on")).2 (Or.inl rfl)⟩

/-- C7 (confirmed).  Whenever `set_name` of the strict module succeeds, the
returned snapshot's identity handle `iface` — the field every subsequent
command string is built from — equals the new name, as do the `name` field
and the returned value. -/
theorem set_name_updates_identity_handle :
    ∀ (sig : Type) (sys sys1 : Sys sig) (self self1 : Iface) (n r : String),
      LNI.set_name self n sys = (sys1, .ok (self1, r)) →
      self1.iface = n ∧ self1.name = n ∧ r = n := by
  intro sig sys sys1 self self1 n r h
  cases hr : sys.run sys.state (setNameCmd self.iface n) with
  | none =>
    simp only [LNI.set_name, LNI.nameA, writeCmd, hr] at h
    simp at h
  | some s1 =>
    simp only [LNI.set_name, LNI.nameA, writeCmd, hr] at h
    split at h
    · simp at h
    · simp only [Prod.mk.injEq, Except.ok.injEq] at h
      obtain ⟨-, h2, h3⟩ := h
      subst h2 h3
      exact ⟨rfl, rfl, rfl⟩

/-- Evaluation of `set_name_updates_identity_handle` on a successful rename
from `eth0` to `eth1`. -/
theorem set_name_updates_identity_handle_instance :
    ({ ifc0 with iface := "eth1", name := "eth1" } : Iface).iface = "eth1"
    ∧ ({ ifc0 with iface := "eth1", name := "eth1" } : Iface).name = "eth1"
    ∧ ("eth1" : String) = "eth1" :=
  set_name_updates_identity_handle Unit sysNoop sysNoop ifc0
    { ifc0 with iface := "eth1", name := "eth1" } "eth1" "eth1" rfl

/-- C9 (confirmed).  For every mutation write (name, alias, hardware
address, state), a non-zero exit status of the external command is always
surfaced to the caller, carrying the failing command: as `SystemCallError`
(whose message embeds the command) in the strict module and as the raw
`CalledProcessError` in the permissive module.  Neither module continues
past the failure. -/
theorem nonzero_exit_always_surfaced :
    ∀ (sig : Type) (sys : Sys sig) (self : Iface) (v : String),
      (sys.run sys.state (setAddrCmd self.iface v) = none →
        (LNI.hwaddrA self (some v) sys).2 = .error (.systemCallError (setAddrCmd self.iface v))
        ∧ (NI.hwaddrA self (some v) sys).2 = .error (.calledProcessError (setAddrCmd self.iface v)))
      ∧ (sys.run sys.state (setAliasCmd self.iface v) = none →
        (LNI.aliasA self (some v) sys).2 = .error (.systemCallError (setAliasCmd self.iface v))
        ∧ (NI.aliasA self (some v) sys).2 = .error (.calledProcessError (setAliasCmd self.iface v)))
      ∧ (sys.run sys.state (setNameCmd self.iface v) = none →
        (LNI.nameA self (some v) sys).2 = .error (.systemCallError (setNameCmd self.iface v))
        ∧ (NI.nameA self (some v) sys).2 = .error (.calledProcessError (setNameCmd self.iface v)))
      ∧ (sys.run sys.state (setStateCmd self.iface v) = none →
        (LNI.stateA self (some v) sys).2 = .error (.systemCallError (setStateCmd self.iface v))
        ∧ (NI.stateA self (some v) sys).2 = .error (.calledProcessError (setStateCmd self.iface v))) := by
  intro sig sys self v
  refine ⟨fun h => ⟨?_, ?_⟩, fun h => ⟨?_, ?_⟩, fun h => ⟨?_, ?_⟩, fun h => ⟨?_, ?_⟩⟩ <;>
    simp [LNI.hwaddrA, NI.hwaddrA, LNI.aliasA, NI.aliasA, LNI.nameA, NI.nameA,
      LNI.stateA, NI.stateA, writeCmd, h]

/-- Evaluation of `nonzero_exit_always_surfaced` on `sysFail`, where every
command exits non-zero. -/
theorem nonzero_exit_always_surfaced_instance :
    ((LNI.hwaddrA ifc0 (some "aa") sysFail).2
        = .error (.systemCallError (setAddrCmd "eth0" "aa")))
    ∧ ((NI.hwaddrA ifc0 (some "aa") sysFail).2
        = .error (.calledProcessError (setAddrCmd "eth0" "aa")))
    ∧ ((LNI.stateA ifc0 (some "up") sysFail).2
        = .error (.systemCallError (setStateCmd "eth0" "up")))
    ∧ ((NI.stateA ifc0 (some "up") sysFail).2
        = .error (.calledProcessError (setStateCmd "eth0" "up"))) :=
  ⟨((nonzero_exit_always_surfaced Unit sysFail ifc0 "aa").1 rfl).1,
   ((nonzero_exit_always_surfaced Unit sysFail ifc0 "aa").1 rfl).2,
   ((nonzero_exit_always_surfaced Unit sysFail ifc0 "up").2.2.2 rfl).1,
   ((nonzero_exit_always_surfaced Unit sysFail ifc0 "up").2.2.2 rfl).2⟩

/-- C1 (amended, for the corrected claim).  The setters of the strict module
that perform the old/new comparison — `set_name`, `set_hwaddr`, `set_state`,
`set_mode`, `set_channel` — never report success when the value read back
after the write equals the value read immediately before it (a success
implies the post-write value differs from the pre-write read; for the name,
whose accessor performs no read-back, a request equal to the current handle
can only fail).  The claim's universal statement is false: `set_alias` of the
strict module performs no comparison (see the counterexample), and the
permissive module's `WirelessInterface.set_name` reports success whenever
the write command exits 0, comparison-free — its final clause below. -/
theorem checked_setters_reject_unchanged :
    ∀ (sig : Type) (sys : Sys sig) (self : Iface),
      (∀ n, n = self.iface → ∀ p : Iface × String, (LNI.set_name self n sys).2 ≠ .ok p)
      ∧ (∀ hw (self1 : Iface) (v : Option String),
          (LNI.set_hwaddr self hw sys).2 = .ok (self1, v) →
          .ok v ≠ (LNI.hwaddrA self none sys).2)
      ∧ (∀ st (self1 : Iface) (v : Option String),
          (LNI.set_state self st sys).2 = .ok (self1, v) →
          .ok v ≠ (LNI.stateA self none sys).2)
      ∧ (∀ m (self1 : Iface) (v : Option String),
          (LNI.set_mode self m sys).2 = .ok (self1, v) →
          .ok v ≠ (LNI.modeA self none sys).2)
      ∧ (∀ c (self1 : Iface) (v : Option Int),
          (LNI.set_channel self c sys).2 = .ok (self1, v) →
          .ok v ≠ (LNI.channelA self none sys).2)
      ∧ (∀ n s1, sys.run sys.state (setNameCmd self.iface n) = some s1 →
          (NI.w_set_name self n sys).2 = .ok ({ self with iface := n, name := n }, n)) := by
  intro sig sys self
  refine ⟨?_, ?_, ?_, ?_, ?_, ?_⟩
  · intro n hn p hc
    subst hn
    cases hr : sys.run sys.state (setNameCmd self.iface self.iface) with
    | none =>
      simp only [LNI.set_name, LNI.nameA, writeCmd, hr] at hc
      simp at hc
    | some s1 =>
      simp only [LNI.set_name, LNI.nameA, writeCmd, hr] at hc
      simp at hc
  · intro hw self1 v hc
    cases hpre : parseField (pySplit (sys.showOut sys.state self.iface) " ") "link/ether" with
    | error e =>
      simp only [LNI.set_hwaddr, LNI.hwaddrA, readParsed, hpre] at hc
      simp at hc
    | ok cur =>
      cases hr : sys.run sys.state (setAddrCmd self.iface hw) with
      | none =>
        simp only [LNI.set_hwaddr, LNI.hwaddrA, readParsed, writeCmd, hpre, hr] at hc
        simp at hc
      | some s1 =>
        cases hpost : parseField (pySplit (sys.showOut s1 self.iface) " ") "link/ether" with
        | error e =>
          simp only [LNI.set_hwaddr, LNI.hwaddrA, readParsed, writeCmd, hpre, hr, hpost] at hc
          simp at hc
        | ok w =>
          simp only [LNI.set_hwaddr, LNI.hwaddrA, readParsed, writeCmd, hpre, hr, hpost] at hc
          simp only [LNI.hwaddrA, readParsed, hpre]
          split at hc
          · simp at hc
          · rename_i hne
            simp only [Prod.mk.injEq, Except.ok.injEq] at hc
            obtain ⟨-, hv⟩ := hc
            subst hv
            intro hcontra
            injection hcontra with hvc
            exact hne hvc
  · intro st self1 v hc
    cases hpre : parseField (pySplit (sys.showOut sys.state self.iface) " ") "state" with
    | error e =>
      simp only [LNI.set_state, LNI.stateA, readParsedLower, hpre, Except.map] at hc
      simp at hc
    | ok cur =>
      cases hr : sys.run sys.state (setStateCmd self.iface st) with
      | none =>
        simp only [LNI.set_state, LNI.stateA, readParsedLower, writeCmd, hpre, hr,
          Except.map] at hc
        simp at hc
      | some s1 =>
        cases hpost : parseField (pySplit (sys.showOut s1 self.iface) " ") "state" with
        | error e =>
          simp only [LNI.set_state, LNI.stateA, readParsedLower, writeCmd, hpre, hr, hpost,
            Except.map] at hc
          simp at hc
        | ok w =>
          simp only [LNI.set_state, LNI.stateA, readParsedLower, writeCmd, hpre, hr, hpost,
            Except.map] at hc
          simp only [LNI.stateA, readParsedLower, hpre, Except.map]
          split at hc
          · simp at hc
          · rename_i hne
            simp only [Prod.mk.injEq, Except.ok.injEq] at hc
            obtain ⟨-, hv⟩ := hc
            subst hv
            intro hcontra
            injection hcontra with hvc
            exact hne hvc
  · intro m self1 v hc
    cases hpre : parseMode (pySplit (sys.iwInfo sys.state self.iface) " ") with
    | error e =>
      simp only [LNI.set_mode, LNI.modeA, hpre] at hc
      simp at hc
    | ok cur =>
      cases hr : sys.run sys.state (setModeCmd self.iface m) with
      | none =>
        simp only [LNI.set_mode, LNI.modeA, writeCmd, hpre, hr] at hc
        simp at hc
      | some s1 =>
        cases hpost : parseMode (pySplit (sys.iwInfo s1 self.iface) " ") with
        | error e =>
          simp only [LNI.set_mode, LNI.modeA, writeCmd, hpre, hr, hpost] at hc
          simp at hc
        | ok w =>
          simp only [LNI.set_mode, LNI.modeA, writeCmd, hpre, hr, hpost] at hc
          simp only [LNI.modeA, hpre]
          split at hc
          · simp at hc
          · rename_i hne
            simp only [Prod.mk.injEq, Except.ok.injEq] at hc
            obtain ⟨-, hv⟩ := hc
            subst hv
            intro hcontra
            injection hcontra with hvc
            exact hne hvc
  · intro c self1 v hc
    cases hpre : parseChannel (pySplit (sys.iwInfo sys.state self.iface) " ") with
    | error e =>
      simp only [LNI.set_channel, LNI.channelA, hpre] at hc
      simp at hc
    | ok cur =>
      cases hr : sys.run sys.state (setChannelCmd self.iface c) with
      | none =>
        simp only [LNI.set_channel, LNI.channelA, writeCmd, hpre, hr] at hc
        simp at hc
      | some s1 =>
        cases hpost : parseChannel (pySplit (sys.iwInfo s1 self.iface) " ") with
        | error e =>
          simp only [LNI.set_channel, LNI.channelA, writeCmd, hpre, hr, hpost] at hc
          simp at hc
        | ok w =>
          simp only [LNI.set_channel, LNI.channelA, writeCmd, hpre, hr, hpost] at hc
          simp only [LNI.channelA, hpre]
          split at hc
          · simp at hc
          · rename_i hne
            simp only [Prod.mk.injEq, Except.ok.injEq] at hc
            obtain ⟨-, hv⟩ := hc
            subst hv
            intro hcontra
            injection hcontra with hvc
            exact hne hvc
  · intro n s1 hr
    simp [NI.w_set_name, NI.nameA, writeCmd, hr]

/-- Evaluation of `checked_setters_reject_unchanged` on `sysFlip`, where
every write both succeeds and visibly changes the observed output, plus an
unchanged-name request and the comparison-free permissive `set_name`. -/
theorem checked_setters_reject_unchanged_instance :
    ((LNI.set_name ifc0 "eth0" sysFlip).2 ≠ .ok (ifc0, "eth0"))
    ∧ (Except.ok (some "bb:bb") ≠ (LNI.hwaddrA ifc0 none sysFlip).2)
    ∧ (Except.ok (some "down") ≠ (LNI.stateA ifc0 none sysFlip).2)
    ∧ (Except.ok (some "monitor") ≠ (LNI.modeA ifc0 none sysFlip).2)
    ∧ (Except.ok (some (11 : Int)) ≠ (LNI.channelA ifc0 none sysFlip).2)
    ∧ ((NI.w_set_name ifc0 "eth0" sysFlip).2
        = .ok ({ ifc0 with iface := "eth0", name := "eth0" }, "eth0")) :=
  ⟨(checked_setters_reject_unchanged Bool sysFlip ifc0).1 "eth0" rfl (ifc0, "eth0"),
   (checked_setters_reject_unchanged Bool sysFlip ifc0).2.1 "cc:cc"
     { ifc0 with hwaddr := some "bb:bb" } (some "bb:bb") (by decide),
   (checked_setters_reject_unchanged Bool sysFlip ifc0).2.2.1 "down"
     { ifc0 with state := some "down" } (some "down") (by decide),
   (checked_setters_reject_unchanged Bool sysFlip ifc0).2.2.2.1 "monitor"
     { ifc0 with mode := some "monitor" } (some "monitor") (by decide),
   (checked_setters_reject_unchanged Bool sysFlip ifc0).2.2.2.2.1 11
     { ifc0 with channel := some 11 } (some 11) (by decide),
   (checked_setters_reject_unchanged Bool sysFlip ifc0).2.2.2.2.2 "eth0" true (by decide)⟩

/-- C8 (amended, for the corrected claim).  For the alias, hardware address,
state, mode and channel setters of the strict module, a successful call
stores in the snapshot exactly the value a fresh read of the post-write
system returns (the accessor re-queries after the write) — but for the name
the snapshot holds the REQUESTED value: `__name__` issues no query at all
after the rename command, so the claim fails there (see the counterexample,
where the stored name diverges from the system's actual name). -/
theorem snapshot_fields_reflect_fresh_reread :
    ∀ (sig : Type) (sys sys1 : Sys sig) (self self1 : Iface),
      (∀ a v, LNI.set_alias self a sys = (sys1, .ok (self1, v)) →
          self1.alias = v ∧ (LNI.aliasA self1 none sys1).2 = .ok self1.alias)
      ∧ (∀ hw v, LNI.set_hwaddr self hw sys = (sys1, .ok (self1, v)) →
          self1.hwaddr = v ∧ (LNI.hwaddrA self1 none sys1).2 = .ok self1.hwaddr)
      ∧ (∀ st v, LNI.set_state self st sys = (sys1, .ok (self1, v)) →
          self1.state = v ∧ (LNI.stateA self1 none sys1).2 = .ok self1.state)
      ∧ (∀ m v, LNI.set_mode self m sys = (sys1, .ok (self1, v)) →
          self1.mode = v ∧ (LNI.modeA self1 none sys1).2 = .ok self1.mode)
      ∧ (∀ c v, LNI.set_channel self c sys = (sys1, .ok (self1, v)) →
          self1.channel = v ∧ (LNI.channelA self1 none sys1).2 = .ok self1.channel)
      ∧ (∀ n r, LNI.set_name self n sys = (sys1, .ok (self1, r)) → self1.name = n) := by
  intro sig sys sys1 self self1
  refine ⟨?_, ?_, ?_, ?_, ?_, ?_⟩
  · intro a v hc
    cases hr : sys.run sys.state (setAliasCmd self.iface a) with
    | none =>
      simp only [LNI.set_alias, LNI.aliasA, writeCmd, hr] at hc
      simp at hc
    | some s1 =>
      cases hp : parseField (pySplit (sys.showOut s1 self.iface) " ") "alias" with
      | error e =>
        simp only [LNI.set_alias, LNI.aliasA, readParsed, writeCmd, hr, hp] at hc
        simp at hc
      | ok w =>
        simp only [LNI.set_alias, LNI.aliasA, readParsed, writeCmd, hr, hp] at hc
        simp only [Prod.mk.injEq, Except.ok.injEq] at hc
        obtain ⟨hsys, hself, hv⟩ := hc
        subst hsys hself hv
        refine ⟨rfl, ?_⟩
        exact hp
  · intro hw v hc
    cases hpre : parseField (pySplit (sys.showOut sys.state self.iface) " ") "link/ether" with
    | error e =>
      simp only [LNI.set_hwaddr, LNI.hwaddrA, readParsed, hpre] at hc
      simp at hc
    | ok cur =>
      cases hr : sys.run sys.state (setAddrCmd self.iface hw) with
      | none =>
        simp only [LNI.set_hwaddr, LNI.hwaddrA, readParsed, writeCmd, hpre, hr] at hc
        simp at hc
      | some s1 =>
        cases hpost : parseField (pySplit (sys.showOut s1 self.iface) " ") "link/ether" with
        | error e =>
          simp only [LNI.set_hwaddr, LNI.hwaddrA, readParsed, writeCmd, hpre, hr, hpost] at hc
          simp at hc
        | ok w =>
          simp only [LNI.set_hwaddr, LNI.hwaddrA, readParsed, writeCmd, hpre, hr, hpost] at hc
          split at hc
          · simp at hc
          · simp only [Prod.mk.injEq, Except.ok.injEq] at hc
            obtain ⟨hsys, hself, hv⟩ := hc
            subst hsys hself hv
            refine ⟨rfl, ?_⟩
            exact hpost
  · intro st v hc
    cases hpre : parseField (pySplit (sys.showOut sys.state self.iface) " ") "state" with
    | error e =>
      simp only [LNI.set_state, LNI.stateA, readParsedLower, hpre, Except.map] at hc
      simp at hc
    | ok cur =>
      cases hr : sys.run sys.state (setStateCmd self.iface st) with
      | none =>
        simp only [LNI.set_state, LNI.stateA, readParsedLower, writeCmd, hpre, hr,
          Except.map] at hc
        simp at hc
      | some s1 =>
        cases hpost : parseField (pySplit (sys.showOut s1 self.iface) " ") "state" with
        | error e =>
          simp only [LNI.set_state, LNI.stateA, readParsedLower, writeCmd, hpre, hr, hpost,
            Except.map] at hc
          simp at hc
        | ok w =>
          simp only [LNI.set_state, LNI.stateA, readParsedLower, writeCmd, hpre, hr, hpost,
            Except.map] at hc
          split at hc
          · simp at hc
          · simp only [Prod.mk.injEq, Except.ok.injEq] at hc
            obtain ⟨hsys, hself, hv⟩ := hc
            subst hsys hself hv
            refine ⟨rfl, ?_⟩
            have hfresh : (parseField (pySplit (sys.showOut s1 self.iface) " ") "state").map
                (Option.map pyLower) = .ok (Option.map pyLower w) := by
              rw [hpost]; rfl
            exact hfresh
  · intro m v hc
    cases hpre : parseMode (pySplit (sys.iwInfo sys.state self.iface) " ") with
    | error e =>
      simp only [LNI.set_mode, LNI.modeA, hpre] at hc
      simp at hc
    | ok cur =>
      cases hr : sys.run sys.state (setModeCmd self.iface m) with
      | none =>
        simp only [LNI.set_mode, LNI.modeA, writeCmd, hpre, hr] at hc
        simp at hc
      | some s1 =>
        cases hpost : parseMode (pySplit (sys.iwInfo s1 self.iface) " ") with
        | error e =>
          simp only [LNI.set_mode, LNI.modeA, writeCmd, hpre, hr, hpost] at hc
          simp at hc
        | ok w =>
          simp only [LNI.set_mode, LNI.modeA, writeCmd, hpre, hr, hpost] at hc
          split at hc
          · simp at hc
          · simp only [Prod.mk.injEq, Except.ok.injEq] at hc
            obtain ⟨hsys, hself, hv⟩ := hc
            subst hsys hself hv
            refine ⟨rfl, ?_⟩
            exact hpost
  · intro c v hc
    cases hpre : parseChannel (pySplit (sys.iwInfo sys.state self.iface) " ") with
    | error e =>
      simp only [LNI.set_channel, LNI.channelA, hpre] at hc
      simp at hc
    | ok cur =>
      cases hr : sys.run sys.state (setChannelCmd self.iface c) with
      | none =>
        simp only [LNI.set_channel, LNI.channelA, writeCmd, hpre, hr] at hc
        simp at hc
      | some s1 =>
        cases hpost : parseChannel (pySplit (sys.iwInfo s1 self.iface) " ") with
        | error e =>
          simp only [LNI.set_channel, LNI.channelA, writeCmd, hpre, hr, hpost] at hc
          simp at hc
        | ok w =>
          simp only [LNI.set_channel, LNI.channelA, writeCmd, hpre, hr, hpost] at hc
          split at hc
          · simp at hc
          · simp only [Prod.mk.injEq, Except.ok.injEq] at hc
            obtain ⟨hsys, hself, hv⟩ := hc
            subst hsys hself hv
            refine ⟨rfl, ?_⟩
            exact hpost
  · intro n r hc
    cases hr : sys.run sys.state (setNameCmd self.iface n) with
    | none =>
      simp only [LNI.set_name, LNI.nameA, writeCmd, hr] at hc
      simp at hc
    | some s1 =>
      simp only [LNI.set_name, LNI.nameA, writeCmd, hr] at hc
      split at hc
      · simp at hc
      · simp only [Prod.mk.injEq, Except.ok.injEq] at hc
        obtain ⟨-, h2, -⟩ := hc
        subst h2
        rfl

/-- Evaluation of `snapshot_fields_reflect_fresh_reread` on `sysFlip`, where
each successful write flips the observed output from `outA` to `outB`. -/
theorem snapshot_fields_reflect_fresh_reread_instance :
    (({ ifc0 with «alias» := some "aliasB" } : Iface).alias = some "aliasB"
      ∧ (LNI.aliasA { ifc0 with «alias» := some "aliasB" } none { sysFlip with state := true }).2
          = .ok ({ ifc0 with «alias» := some "aliasB" } : Iface).alias)
    ∧ (({ ifc0 with hwaddr := some "bb:bb" } : Iface).hwaddr = some "bb:bb"
      ∧ (LNI.hwaddrA { ifc0 with hwaddr := some "bb:bb" } none { sysFlip with state := true }).2
          = .ok ({ ifc0 with hwaddr := some "bb:bb" } : Iface).hwaddr)
    ∧ (({ ifc0 with name := "eth1", iface := "eth1" } : Iface).name = "eth1") :=
  ⟨(snapshot_fields_reflect_fresh_reread Bool sysFlip { sysFlip with state := true } ifc0
      { ifc0 with «alias» := some "aliasB" }).1 "zz" (some "aliasB") rfl,
   (snapshot_fields_reflect_fresh_reread Bool sysFlip { sysFlip with state := true } ifc0
      { ifc0 with hwaddr := some "bb:bb" }).2.1 "cc:cc" (some "bb:bb") rfl,
   (snapshot_fields_reflect_fresh_reread Bool sysFlip { sysFlip with state := true } ifc0
      { ifc0 with name := "eth1", iface := "eth1" }).2.2.2.2.2 "eth1" "eth1" rfl⟩
